import Mathlib

/-!
Verification of the credential-resolution and dispatch workflow of
`midea_beautiful_dehumidifier/cli.py`.

The only source file of the repository under study is `cli.py`; the library
collaborators it calls (`connect_to_cloud`, `appliance_state`,
`find_appliances`, `LanDevice.set_state`) are external to the artifact and are
modelled from the specification's collaborator contracts.  The dispatcher
itself (`cli`, lines 151-206 of `cli.py`) is embedded faithfully as a pure
function from parsed arguments and an environment (the collaborators'
behaviour) to a trace of observable events: cloud calls, appliance I/O,
printed state blocks and logged errors.
-/

set_option linter.unusedVariables false

namespace MideaCli

/-- Default app key constant (`DEFAULT_APPKEY` in `midea.py`, outside the
studied artifact; its concrete value is irrelevant to the workflow). -/
def DEFAULT_APPKEY : String := "3742e9e5842d4ad59c2db887e12449f9"

/-- Default app id constant (`DEFAULT_APP_ID` in `midea.py`, outside the
studied artifact). -/
def DEFAULT_APP_ID : String := "1017"

/-- The state snapshot of an appliance: the fields the `output` block prints
plus the power flag.  Field values are kept as the raw strings the CLI layer
passes around. -/
structure DeviceState where
  name : String
  current_humidity : String
  target_humidity : String
  fan_speed : String
  tank_full : String
  mode : String
  ion_mode : String
  is_on : String
deriving Repr, DecidableEq

/-- A partial mutation: exactly the five keyword arguments `cli` passes to
`set_state` (lines 199-205); `none` is Python's `None` for an omitted flag. -/
structure Mutation where
  target_humidity : Option String
  fan_speed : Option String
  mode : Option String
  ion_mode : Option String
  is_on : Option String
deriving Repr, DecidableEq

/-- Modelled from the spec: "Each field of the mutation is applied
independently; omitted fields are left at their current device value"
(§4.2 Set, §3 Command Intent).  Applying a partial mutation to a device
state updates exactly the supplied fields. -/
def applyMutation (m : Mutation) (s : DeviceState) : DeviceState :=
  { s with
    target_humidity := m.target_humidity.getD s.target_humidity
    fan_speed := m.fan_speed.getD s.fan_speed
    mode := m.mode.getD s.mode
    ion_mode := m.ion_mode.getD s.ion_mode
    is_on := m.is_on.getD s.is_on }

/-- An appliance handle (`LanDevice`): address, credential pair and the last
state snapshot read from the device. -/
structure Appliance where
  ip : String
  token : String
  key : String
  state : DeviceState
deriving Repr, DecidableEq

/-- A cloud session, as returned by `connect_to_cloud`. -/
structure Session where
  account : String
  password : String
  appkey : String
  appid : String
deriving Repr, DecidableEq

/-- The behaviour of the external collaborators during one command:
whether the appliance at an address answers, the state stored on each
device, the per-device secrets the cloud catalog resolves, and what the
discovery scan of a list of ranges finds. -/
structure Env where
  reachable : String → Bool
  deviceState : String → DeviceState
  cloudToken : String → String
  cloudKey : String → String
  allLocalRanges : List String
  discovered : List String → List Appliance

/-- Authentication material handed to `appliance_state`: either a cloud
session or a direct token/key pair. -/
inductive Auth where
  | cloud (s : Session)
  | direct (token key : String)
deriving Repr, DecidableEq

/-- Modelled from the spec: `connect_to_cloud` (library function, not in the
studied artifact) exchanges account credentials for an authenticated session
(§6 `CloudSessionProvider.authenticate`).  The `AuthError` outcome is not
modelled: no claim under study concerns cloud authentication failure. -/
def connect_to_cloud (account password appkey appid : String) : Session :=
  ⟨account, password, appkey, appid⟩

/-- Modelled from the spec: `appliance_state` (library function, not in the
studied artifact) resolves an appliance handle at the given address and
performs the initial state read against the device; it yields no handle when
the device is unreachable or the read fails.  With a cloud session the
token/key are resolved from the cloud catalog; with direct auth they are used
as supplied (§4.1, §6). -/
def appliance_state (env : Env) (ip : String) (auth : Auth) : Option Appliance :=
  if env.reachable ip then
    match auth with
    | .cloud _ => some ⟨ip, env.cloudToken ip, env.cloudKey ip, env.deviceState ip⟩
    | .direct t k => some ⟨ip, t, k, env.deviceState ip⟩
  else none

/-- Modelled from the spec: `LanDevice.set_state` (library method, not in the
studied artifact) applies the supplied partial mutation to the device —
absent fields left unchanged — and then performs a fresh read of the
post-mutation state into the handle ("applies the supplied partial mutation
... and finally re-reads and returns the post-mutation state for
confirmation", §4.2 Set). -/
def set_state (env : Env) (ap : Appliance) (m : Mutation) : Appliance :=
  { ap with state := applyMutation m (env.deviceState ap.ip) }

/-- Modelled from the spec: the effective ranges the Discovery Service scans —
an empty or omitted list of ranges means "all local ranges" (§4.2 Discover,
§6 `DiscoveryService.discover`). -/
def effectiveNetworks (env : Env) (networks : Option (List String)) : List String :=
  match networks with
  | none => env.allLocalRanges
  | some [] => env.allLocalRanges
  | some ns => ns

/-- Modelled from the spec: `find_appliances` (library function, not in the
studied artifact) probes the effective network ranges with a cloud session and
returns the collection of reachable, fully credentialed handles — an empty
collection, not a failure, when nothing responds (§4.2 Discover). -/
def find_appliances (env : Env) (appkey account password appid : String)
    (networks : Option (List String)) : List Appliance :=
  env.discovered (effectiveNetworks env networks)

/-- Observable events of one command invocation: collaborator calls (cloud
authentication, appliance resolution/read, device mutation, fresh device
read), the printed state block of `output`, and the two `_LOGGER.error`
messages of `cli`. -/
inductive Event where
  | cloudCall (account password appkey appid : String)
  | resolveRead (ip : String)
  | deviceMutate (ip : String) (m : Mutation)
  | deviceRead (ip : String) (s : DeviceState)
  | printBlock (ip token key : String) (s : DeviceState) (showCreds : Bool)
  | logMissingCredentials
  | logUnableToGetStatus (ip : String)
  | findAppliancesCall (appkey account password appid : String)
      (networks : Option (List String))
deriving Repr, DecidableEq

/-- Raw options of a `status` or `set` invocation as supplied on the command
line; `none` means the flag was omitted. -/
structure RawOpts where
  ip : Option String
  token : Option String
  key : Option String
  account : Option String
  password : Option String
  appkey : Option String
  appid : Option String
  credentials : Bool
  humidity : Option String
  fan : Option String
  mode : Option String
  ion : Option String
  «on» : Option String
deriving Repr, DecidableEq

/-- Parsed arguments of a `status` or `set` invocation (the `args` namespace
after `parser.parse_args()` succeeds). -/
structure Args where
  ip : String
  token : String
  key : String
  account : String
  password : String
  appkey : String
  appid : String
  credentials : Bool
  humidity : Option String
  fan : Option String
  mode : Option String
  ion : Option String
  «on» : Option String
deriving Repr, DecidableEq

/-- The argument parser of the `status` and `set` subcommands (lines 84-149
of `cli.py`): `--ip`, `--account` and `--password` are `required=True`, so
parsing fails when any of them is omitted; `--token` and `--key` default to
the empty string, `--appkey`/`--appid` to the fixed constants, and the five
mutation flags to `None`. -/
def parseStatusSet (raw : RawOpts) : Option Args :=
  match raw.ip, raw.account, raw.password with
  | some ip, some account, some password =>
    some
      { ip := ip
        token := raw.token.getD ""
        key := raw.key.getD ""
        account := account
        password := password
        appkey := raw.appkey.getD DEFAULT_APPKEY
        appid := raw.appid.getD DEFAULT_APP_ID
        credentials := raw.credentials
        humidity := raw.humidity
        fan := raw.fan
        mode := raw.mode
        ion := raw.ion
        «on» := raw.«on» }
  | _, _, _ => none

/-- Parsed arguments of a `discover` invocation; `network` is `none` when
`--network` was omitted (argparse stores `None`). -/
structure DiscoverArgs where
  account : String
  password : String
  appkey : String
  appid : String
  credentials : Bool
  network : Option (List String)
deriving Repr, DecidableEq

/-- Outcome of the shared credential-resolution block of `cli` (lines 169-180
and 186-197): either the early `return` after logging missing credentials, or
the `appliance` variable (`None` when `appliance_state` failed). -/
inductive ResolveResult where
  | missingCredentials
  | resolved (a : Option Appliance)
deriving Repr, DecidableEq

/-- The credential-resolution block shared verbatim by the `status` and `set`
branches of `cli`: `if not args.token:` — Python string falsiness, i.e. the
token equals `""` — then, `if args.account and args.password:` call
`connect_to_cloud` and `appliance_state(ip, cloud=cloud)`, else log
"Missing token/key or cloud credentials" and return; otherwise call
`appliance_state(ip, token=..., key=...)` directly. -/
def resolveAppliance (env : Env) (a : Args) : List Event × ResolveResult :=
  if a.token = "" then
    if a.account ≠ "" ∧ a.password ≠ "" then
      let cloud := connect_to_cloud a.account a.password a.appkey a.appid
      ([Event.cloudCall a.account a.password a.appkey a.appid,
        Event.resolveRead a.ip],
       ResolveResult.resolved (appliance_state env a.ip (Auth.cloud cloud)))
    else
      ([Event.logMissingCredentials], ResolveResult.missingCredentials)
  else
    ([Event.resolveRead a.ip],
     ResolveResult.resolved (appliance_state env a.ip (Auth.direct a.token a.key)))

/-- The `status` branch of `cli` (lines 169-184): resolve, then either print
the state block via `output` or log "Unable to get appliance status". -/
def statusCommand (env : Env) (a : Args) : List Event :=
  let r := resolveAppliance env a
  match r.2 with
  | ResolveResult.missingCredentials => r.1
  | ResolveResult.resolved (some ap) =>
      r.1 ++ [Event.printBlock ap.ip ap.token ap.key ap.state a.credentials]
  | ResolveResult.resolved none =>
      r.1 ++ [Event.logUnableToGetStatus a.ip]

/-- The five keyword arguments `cli` passes to `set_state` (lines 199-205):
all five fields, `None` for every flag the caller omitted. -/
def mutationOfArgs (a : Args) : Mutation :=
  ⟨a.humidity, a.fan, a.mode, a.ion, a.«on»⟩

/-- The `set` branch of `cli` (lines 186-206): resolve, then — only when an
appliance handle was obtained — call `set_state` with all five mutation
fields and print the handle's (freshly re-read) state block; when resolution
yields no handle, fall through silently (there is no `else` at line 198). -/
def setCommand (env : Env) (a : Args) : List Event :=
  let r := resolveAppliance env a
  match r.2 with
  | ResolveResult.missingCredentials => r.1
  | ResolveResult.resolved (some ap) =>
      let m := mutationOfArgs a
      let ap' := set_state env ap m
      r.1 ++ [Event.deviceMutate a.ip m,
              Event.deviceRead a.ip ap'.state,
              Event.printBlock ap'.ip ap'.token ap'.key ap'.state a.credentials]
  | ResolveResult.resolved none => r.1

/-- The `discover` branch of `cli` (lines 158-167): call `find_appliances`
with the supplied networks value forwarded unchanged, then print one block
per discovered appliance. -/
def discoverCommand (env : Env) (d : DiscoverArgs) : List Event :=
  Event.findAppliancesCall d.appkey d.account d.password d.appid d.network ::
    (find_appliances env d.appkey d.account d.password d.appid d.network).map
      (fun ap => Event.printBlock ap.ip ap.token ap.key ap.state d.credentials)

/-- Is the event a `connect_to_cloud` call? -/
def Event.isCloudCall : Event → Bool
  | .cloudCall _ _ _ _ => true
  | _ => false

/-- Is the event any appliance device I/O (resolution read, mutation, or
fresh read)? -/
def Event.isDeviceIO : Event → Bool
  | .resolveRead _ => true
  | .deviceMutate _ _ => true
  | .deviceRead _ _ => true
  | _ => false

/-- Is the event a printed state block? -/
def Event.isPrint : Event → Bool
  | .printBlock _ _ _ _ _ => true
  | _ => false

/-- Is the event a logged error? -/
def Event.isLog : Event → Bool
  | .logMissingCredentials => true
  | .logUnableToGetStatus _ => true
  | _ => false

/-- Is the event a device mutation call? -/
def Event.isMutate : Event → Bool
  | .deviceMutate _ _ => true
  | _ => false

/-- A concrete device state used to instantiate the theorems. -/
def sampleState : DeviceState :=
  ⟨"Dehumidifier", "45", "50", "40", "False", "1", "False", "True"⟩

/-- A concrete collaborator environment: every appliance reachable, the same
state everywhere, fixed cloud secrets, an empty discovery result. -/
def sampleEnv : Env where
  reachable := fun _ => true
  deviceState := fun _ => sampleState
  cloudToken := fun _ => "CLOUDTOK"
  cloudKey := fun _ => "CLOUDKEY"
  allLocalRanges := ["192.168.1.0/24"]
  discovered := fun _ => []

/-- The sample environment with no appliance answering. -/
def downEnv : Env where
  reachable := fun _ => false
  deviceState := fun _ => sampleState
  cloudToken := fun _ => "CLOUDTOK"
  cloudKey := fun _ => "CLOUDKEY"
  allLocalRanges := ["192.168.1.0/24"]
  discovered := fun _ => []

/-- Parsed arguments carrying a non-empty token/key pair (direct auth). -/
def directArgs : Args :=
  { ip := "10.0.0.5", token := "TOK", key := "KEY", account := "acc",
    password := "pw", appkey := DEFAULT_APPKEY, appid := DEFAULT_APP_ID,
    credentials := false, humidity := some "55", fan := none, mode := none,
    ion := none, «on» := none }

/-- Parsed arguments with an empty token and non-empty account/password
(cloud-mediated auth). -/
def cloudArgs : Args :=
  { ip := "10.0.0.5", token := "", key := "", account := "acc",
    password := "pw", appkey := DEFAULT_APPKEY, appid := DEFAULT_APP_ID,
    credentials := false, humidity := none, fan := some "60", mode := none,
    ion := none, «on» := none }

/-- Parsed arguments with an empty token and an empty account. -/
def noCredArgs : Args :=
  { ip := "10.0.0.5", token := "", key := "", account := "",
    password := "pw", appkey := DEFAULT_APPKEY, appid := DEFAULT_APP_ID,
    credentials := false, humidity := none, fan := none, mode := none,
    ion := none, «on» := none }

/-- Discover arguments with `--network` omitted. -/
def discoverNoNetworks : DiscoverArgs :=
  { account := "acc", password := "pw", appkey := DEFAULT_APPKEY,
    appid := DEFAULT_APP_ID, credentials := false, network := none }

/-- The handle `appliance_state` yields for `directArgs` under `sampleEnv`. -/
def sampleAp : Appliance := ⟨"10.0.0.5", "TOK", "KEY", sampleState⟩

/-- The handle `appliance_state` yields for `cloudArgs` under `sampleEnv`. -/
def cloudAp : Appliance := ⟨"10.0.0.5", "CLOUDTOK", "CLOUDKEY", sampleState⟩

/-- Raw command-line options supplying token, key, account and password. -/
def rawDirect : RawOpts :=
  ⟨some "10.0.0.5", some "TOK", some "KEY", some "acc", some "pw", none, none,
    false, some "55", none, none, none, none⟩

/-- The resolution block emits one of exactly three traces: cloud call then
resolution read, resolution read alone, or (with the `missingCredentials`
outcome) the missing-credentials log alone. -/
theorem resolve_trace_shape (env : Env) (a : Args) :
    (resolveAppliance env a).1
        = [Event.cloudCall a.account a.password a.appkey a.appid,
           Event.resolveRead a.ip] ∨
    (resolveAppliance env a).1 = [Event.resolveRead a.ip] ∨
    ((resolveAppliance env a).1 = [Event.logMissingCredentials] ∧
      (resolveAppliance env a).2 = ResolveResult.missingCredentials) := by
  unfold resolveAppliance
  by_cases ht : a.token = "" <;>
    [skip; simp [ht]]
  by_cases hc : a.account ≠ "" ∧ a.password ≠ "" <;> simp [ht, hc]

/-- When the resolution block yields a handle, the handle's address is the
requested address, its state is the device state read at resolution time, and
the device was reachable. -/
theorem resolve_some_facts (env : Env) (a : Args) (ap : Appliance)
    (h : (resolveAppliance env a).2 = ResolveResult.resolved (some ap)) :
    ap.ip = a.ip ∧ ap.state = env.deviceState a.ip ∧
      env.reachable a.ip = true := by
  unfold resolveAppliance appliance_state at h
  by_cases ht : a.token = "" <;> simp [ht] at h
  · by_cases hc : a.account ≠ "" ∧ a.password ≠ "" <;> simp [hc] at h
    by_cases hr : env.reachable a.ip = true <;> simp [hr] at h
    exact ⟨by simp [← h], by simp [← h], hr⟩
  · by_cases hr : env.reachable a.ip = true <;> simp [hr] at h
    exact ⟨by simp [← h], by simp [← h], hr⟩


/-- C1: for every set command whose resolution succeeds, the dispatcher, after
the mutation call, performs a fresh read of the (post-mutation) appliance
state, and the state block it prints carries exactly that freshly read
post-mutation state — not `ap.state`, the snapshot read before the mutation
(which, as the first conjunct records, is the pre-mutation device state). -/
theorem set_prints_freshly_reread_state (env : Env) (a : Args) (ap : Appliance)
    (h : (resolveAppliance env a).2 = ResolveResult.resolved (some ap)) :
    ap.state = env.deviceState a.ip ∧
    setCommand env a = (resolveAppliance env a).1 ++
      [Event.deviceMutate a.ip (mutationOfArgs a),
       Event.deviceRead a.ip
         (applyMutation (mutationOfArgs a) (env.deviceState a.ip)),
       Event.printBlock a.ip ap.token ap.key
         (applyMutation (mutationOfArgs a) (env.deviceState a.ip))
         a.credentials] := by
  obtain ⟨hip, hst, -⟩ := resolve_some_facts env a ap h
  refine ⟨hst, ?_⟩
  simp [setCommand, h, set_state, hip]

/-- Witness for C1 at a concrete environment and argument vector. -/
theorem set_prints_freshly_reread_state_witness :
    (resolveAppliance sampleEnv directArgs).2
        = ResolveResult.resolved (some sampleAp) ∧
    (sampleAp.state = sampleEnv.deviceState directArgs.ip ∧
      setCommand sampleEnv directArgs = (resolveAppliance sampleEnv directArgs).1 ++
        [Event.deviceMutate directArgs.ip (mutationOfArgs directArgs),
         Event.deviceRead directArgs.ip
           (applyMutation (mutationOfArgs directArgs)
             (sampleEnv.deviceState directArgs.ip)),
         Event.printBlock directArgs.ip sampleAp.token sampleAp.key
           (applyMutation (mutationOfArgs directArgs)
             (sampleEnv.deviceState directArgs.ip))
           directArgs.credentials]) :=
  ⟨by decide, set_prints_freshly_reread_state sampleEnv directArgs sampleAp (by decide)⟩

/-- C3: for every status or set request with an empty token and an empty
account or password, the command logs the missing-credentials error and
aborts: the trace is exactly that single log event, so no cloud call, no
appliance I/O and no printed state block occur. -/
theorem missing_credentials_aborts (env : Env) (a : Args)
    (ht : a.token = "") (hc : a.account = "" ∨ a.password = "") :
    statusCommand env a = [Event.logMissingCredentials] ∧
    setCommand env a = [Event.logMissingCredentials] ∧
    (statusCommand env a).any Event.isCloudCall = false ∧
    (statusCommand env a).any Event.isDeviceIO = false ∧
    (statusCommand env a).any Event.isPrint = false ∧
    (setCommand env a).any Event.isCloudCall = false ∧
    (setCommand env a).any Event.isDeviceIO = false ∧
    (setCommand env a).any Event.isPrint = false := by
  have hcond : ¬(a.account ≠ "" ∧ a.password ≠ "") := by
    rcases hc with h | h <;> simp [h]
  have hres : resolveAppliance env a
      = ([Event.logMissingCredentials], ResolveResult.missingCredentials) := by
    simp [resolveAppliance, ht, hcond]
  have hs : statusCommand env a = [Event.logMissingCredentials] := by
    simp [statusCommand, hres]
  have hst : setCommand env a = [Event.logMissingCredentials] := by
    simp [setCommand, hres]
  refine ⟨hs, hst, ?_, ?_, ?_, ?_, ?_, ?_⟩ <;>
    simp [hs, hst, Event.isCloudCall, Event.isDeviceIO, Event.isPrint]

/-- Witness for C3 at a concrete environment and argument vector. -/
theorem missing_credentials_aborts_witness :
    noCredArgs.token = "" ∧ (noCredArgs.account = "" ∨ noCredArgs.password = "") ∧
    (statusCommand sampleEnv noCredArgs = [Event.logMissingCredentials] ∧
     setCommand sampleEnv noCredArgs = [Event.logMissingCredentials] ∧
     (statusCommand sampleEnv noCredArgs).any Event.isCloudCall = false ∧
     (statusCommand sampleEnv noCredArgs).any Event.isDeviceIO = false ∧
     (statusCommand sampleEnv noCredArgs).any Event.isPrint = false ∧
     (setCommand sampleEnv noCredArgs).any Event.isCloudCall = false ∧
     (setCommand sampleEnv noCredArgs).any Event.isDeviceIO = false ∧
     (setCommand sampleEnv noCredArgs).any Event.isPrint = false) :=
  ⟨rfl, Or.inl rfl, missing_credentials_aborts sampleEnv noCredArgs rfl (Or.inl rfl)⟩

/-- C9: for every set command in which resolution runs but yields no appliance
handle, the command terminates silently — the trace is just the resolution
trace, with no mutation call, no printed block and no logged error — whereas
the status command in the same situation appends the
unable-to-get-status error log. -/
theorem set_silent_when_resolution_yields_none (env : Env) (a : Args)
    (h : (resolveAppliance env a).2 = ResolveResult.resolved none) :
    setCommand env a = (resolveAppliance env a).1 ∧
    (setCommand env a).any Event.isMutate = false ∧
    (setCommand env a).any Event.isPrint = false ∧
    (setCommand env a).any Event.isLog = false ∧
    statusCommand env a
      = (resolveAppliance env a).1 ++ [Event.logUnableToGetStatus a.ip] := by
  have hset : setCommand env a = (resolveAppliance env a).1 := by
    simp [setCommand, h]
  have hstat : statusCommand env a
      = (resolveAppliance env a).1 ++ [Event.logUnableToGetStatus a.ip] := by
    simp [statusCommand, h]
  rcases resolve_trace_shape env a with hsh | hsh | ⟨hsh, h2⟩
  · refine ⟨hset, ?_, ?_, ?_, hstat⟩ <;>
      simp [hset, hsh, Event.isMutate, Event.isPrint, Event.isLog]
  · refine ⟨hset, ?_, ?_, ?_, hstat⟩ <;>
      simp [hset, hsh, Event.isMutate, Event.isPrint, Event.isLog]
  · rw [h2] at h
    simp at h

/-- Witness for C9 at a concrete environment (appliance down) and argument
vector. -/
theorem set_silent_when_resolution_yields_none_witness :
    (resolveAppliance downEnv directArgs).2 = ResolveResult.resolved none ∧
    (setCommand downEnv directArgs = (resolveAppliance downEnv directArgs).1 ∧
     (setCommand downEnv directArgs).any Event.isMutate = false ∧
     (setCommand downEnv directArgs).any Event.isPrint = false ∧
     (setCommand downEnv directArgs).any Event.isLog = false ∧
     statusCommand downEnv directArgs
       = (resolveAppliance downEnv directArgs).1
           ++ [Event.logUnableToGetStatus directArgs.ip]) :=
  ⟨by decide, set_silent_when_resolution_yields_none downEnv directArgs (by decide)⟩

/-- C10: for every set command whose resolution succeeds, exactly one
`set_state` call is issued, and it carries all five mutation fields — `none`
for every flag the caller omitted — so a set command with no mutation flags
still issues one mutation call. -/
theorem set_state_called_unconditionally (env : Env) (a : Args) (ap : Appliance)
    (h : (resolveAppliance env a).2 = ResolveResult.resolved (some ap)) :
    (setCommand env a).countP Event.isMutate = 1 ∧
    Event.deviceMutate a.ip ⟨a.humidity, a.fan, a.mode, a.ion, a.«on»⟩
      ∈ setCommand env a := by
  rcases resolve_trace_shape env a with hsh | hsh | ⟨hsh, h2⟩
  · constructor <;>
      simp [setCommand, h, hsh, mutationOfArgs, Event.isMutate,
        List.countP_cons, List.countP_append]
  · constructor <;>
      simp [setCommand, h, hsh, mutationOfArgs, Event.isMutate,
        List.countP_cons, List.countP_append]
  · rw [h2] at h
    simp at h

/-- Witness for C10 at a concrete environment and an argument vector whose
five mutation flags are all omitted. -/
theorem set_state_called_unconditionally_witness :
    (resolveAppliance sampleEnv
        { directArgs with humidity := none }).2
      = ResolveResult.resolved (some sampleAp) ∧
    ((setCommand sampleEnv { directArgs with humidity := none }).countP
        Event.isMutate = 1 ∧
     Event.deviceMutate "10.0.0.5" ⟨none, none, none, none, none⟩
       ∈ setCommand sampleEnv { directArgs with humidity := none }) :=
  ⟨by decide, set_state_called_unconditionally sampleEnv
      { directArgs with humidity := none } sampleAp (by decide)⟩

/-- With an empty token and empty account or password, the resolution block
logs the missing-credentials error and aborts. -/
theorem resolve_missing (env : Env) (a : Args) (ht : a.token = "")
    (hc : ¬(a.account ≠ "" ∧ a.password ≠ "")) :
    resolveAppliance env a
      = ([Event.logMissingCredentials], ResolveResult.missingCredentials) := by
  simp [resolveAppliance, ht, hc]

/-- With an empty token and non-empty account and password, the resolution
block authenticates to the cloud and then resolves the handle through the
session. -/
theorem resolve_cloud (env : Env) (a : Args) (ht : a.token = "")
    (ha : a.account ≠ "") (hp : a.password ≠ "") :
    resolveAppliance env a
      = ([Event.cloudCall a.account a.password a.appkey a.appid,
          Event.resolveRead a.ip],
         ResolveResult.resolved (appliance_state env a.ip
           (Auth.cloud (connect_to_cloud a.account a.password a.appkey a.appid)))) := by
  simp [resolveAppliance, ht, ha, hp]

/-- With a non-empty token, the resolution block builds the handle directly
from address, token and key. -/
theorem resolve_direct (env : Env) (a : Args) (ht : a.token ≠ "") :
    resolveAppliance env a
      = ([Event.resolveRead a.ip],
         ResolveResult.resolved
           (appliance_state env a.ip (Auth.direct a.token a.key))) := by
  simp [resolveAppliance, ht]

/-- No invocation of the status or set command ever makes more than one cloud
authentication call. -/
theorem cloud_count_le_one (env : Env) (a : Args) :
    (statusCommand env a).countP Event.isCloudCall ≤ 1 ∧
    (setCommand env a).countP Event.isCloudCall ≤ 1 := by
  by_cases ht : a.token = ""
  · by_cases hc : a.account ≠ "" ∧ a.password ≠ ""
    · obtain ⟨ha, hp⟩ := hc
      have hres := resolve_cloud env a ht ha hp
      cases happ : appliance_state env a.ip
          (Auth.cloud (connect_to_cloud a.account a.password a.appkey a.appid)) <;>
        exact ⟨by simp [statusCommand, hres, happ, Event.isCloudCall,
                List.countP_cons, List.countP_append],
               by simp [setCommand, hres, happ, Event.isCloudCall,
                List.countP_cons, List.countP_append]⟩
    · have hres := resolve_missing env a ht hc
      exact ⟨by simp [statusCommand, hres, Event.isCloudCall, List.countP_cons],
             by simp [setCommand, hres, Event.isCloudCall, List.countP_cons]⟩
  · have hres := resolve_direct env a ht
    cases happ : appliance_state env a.ip (Auth.direct a.token a.key) <;>
      exact ⟨by simp [statusCommand, hres, happ, Event.isCloudCall,
              List.countP_cons, List.countP_append],
             by simp [setCommand, hres, happ, Event.isCloudCall,
              List.countP_cons, List.countP_append]⟩

/-- C2 counterexample: with an empty token AND an empty account the claimed
equivalence "a cloud call occurs iff the token is empty" fails — the token is
empty, yet the status command makes no cloud call (it aborts on missing
credentials). -/
theorem cloud_iff_token_empty_counterexample :
    ¬(((statusCommand sampleEnv noCredArgs).any Event.isCloudCall = true)
        ↔ noCredArgs.token = "") := by decide

/-- C2 (amended): a cloud call occurs exactly when the token is empty AND
account and password are both non-empty; whenever the token is non-empty the
handle is constructed directly from address, token and key and no cloud call
occurs. -/
theorem cloud_call_exactly_when_token_empty_and_creds (env : Env) (a : Args) :
    ((statusCommand env a).any Event.isCloudCall = true
        ↔ a.token = "" ∧ a.account ≠ "" ∧ a.password ≠ "") ∧
    ((setCommand env a).any Event.isCloudCall = true
        ↔ a.token = "" ∧ a.account ≠ "" ∧ a.password ≠ "") ∧
    (a.token ≠ "" →
      resolveAppliance env a
        = ([Event.resolveRead a.ip],
           ResolveResult.resolved
             (appliance_state env a.ip (Auth.direct a.token a.key)))) := by
  refine ⟨?_, ?_, fun ht => resolve_direct env a ht⟩ <;>
  · by_cases ht : a.token = ""
    · by_cases hc : a.account ≠ "" ∧ a.password ≠ ""
      · obtain ⟨ha, hp⟩ := hc
        have hres := resolve_cloud env a ht ha hp
        cases happ : appliance_state env a.ip
            (Auth.cloud (connect_to_cloud a.account a.password a.appkey a.appid)) <;>
          simp [statusCommand, setCommand, hres, happ, Event.isCloudCall, ht, ha, hp]
      · have hres := resolve_missing env a ht hc
        simp [statusCommand, setCommand, hres, Event.isCloudCall, ht, hc]
    · have hres := resolve_direct env a ht
      cases happ : appliance_state env a.ip (Auth.direct a.token a.key) <;>
        simp [statusCommand, setCommand, hres, happ, Event.isCloudCall, ht]

/-- Witness for the amended C2 at a concrete environment and argument
vector. -/
theorem cloud_call_exactly_when_token_empty_and_creds_witness :
    ((statusCommand sampleEnv directArgs).any Event.isCloudCall = true
        ↔ directArgs.token = "" ∧ directArgs.account ≠ "" ∧ directArgs.password ≠ "") ∧
    ((setCommand sampleEnv directArgs).any Event.isCloudCall = true
        ↔ directArgs.token = "" ∧ directArgs.account ≠ "" ∧ directArgs.password ≠ "") ∧
    (directArgs.token ≠ "" →
      resolveAppliance sampleEnv directArgs
        = ([Event.resolveRead directArgs.ip],
           ResolveResult.resolved
             (appliance_state sampleEnv directArgs.ip
               (Auth.direct directArgs.token directArgs.key)))) :=
  cloud_call_exactly_when_token_empty_and_creds sampleEnv directArgs

/-- C4: no invocation of status or set ever makes more than one cloud
authentication call, and with an empty token and non-empty account and
password exactly one cloud call occurs and it is the very first event of the
trace — hence it precedes any appliance device I/O. -/
theorem single_cloud_auth_before_device_io (env : Env) (a : Args) :
    (statusCommand env a).countP Event.isCloudCall ≤ 1 ∧
    (setCommand env a).countP Event.isCloudCall ≤ 1 ∧
    (a.token = "" → a.account ≠ "" → a.password ≠ "" →
      statusCommand env a
          = Event.cloudCall a.account a.password a.appkey a.appid
              :: (statusCommand env a).tail ∧
      ((statusCommand env a).tail).countP Event.isCloudCall = 0 ∧
      setCommand env a
          = Event.cloudCall a.account a.password a.appkey a.appid
              :: (setCommand env a).tail ∧
      ((setCommand env a).tail).countP Event.isCloudCall = 0) := by
  obtain ⟨h1, h2⟩ := cloud_count_le_one env a
  refine ⟨h1, h2, fun ht ha hp => ?_⟩
  have hres := resolve_cloud env a ht ha hp
  cases happ : appliance_state env a.ip
      (Auth.cloud (connect_to_cloud a.account a.password a.appkey a.appid)) <;>
    refine ⟨?_, ?_, ?_, ?_⟩ <;>
      simp [statusCommand, setCommand, hres, happ, Event.isCloudCall,
        List.countP_cons, List.countP_append, set_state]

/-- Witness for C4 at a concrete environment and argument vector with an
empty token and non-empty account/password. -/
theorem single_cloud_auth_before_device_io_witness :
    statusCommand sampleEnv cloudArgs
        = Event.cloudCall cloudArgs.account cloudArgs.password
            cloudArgs.appkey cloudArgs.appid
            :: (statusCommand sampleEnv cloudArgs).tail ∧
    ((statusCommand sampleEnv cloudArgs).tail).countP Event.isCloudCall = 0 ∧
    setCommand sampleEnv cloudArgs
        = Event.cloudCall cloudArgs.account cloudArgs.password
            cloudArgs.appkey cloudArgs.appid
            :: (setCommand sampleEnv cloudArgs).tail ∧
    ((setCommand sampleEnv cloudArgs).tail).countP Event.isCloudCall = 0 :=
  (single_cloud_auth_before_device_io sampleEnv cloudArgs).2.2
    rfl (by decide) (by decide)

/-- C5 counterexample: the command-line entry point REJECTS a set invocation
supplying a non-empty token and key but no account and no password —
`--account` and `--password` are declared `required=True` for status/set, so
parsing fails instead of accepting the request. -/
theorem set_token_without_account_rejected :
    parseStatusSet
      ⟨some "10.0.0.5", some "TOK", some "KEY", none, none, none, none,
        false, some "55", none, none, none, none⟩ = none := by rfl

/-- C5 (amended): the entry point requires the `--account` and `--password`
flags even when a token/key pair is supplied (any parse success implies both
flags were present); when they are supplied and the token is non-empty, the
handle is built directly from token/key, no cloud call is made, and the
command proceeds (mutation applied, confirmation block printed). -/
theorem token_key_requires_account_flags (raw : RawOpts) (a : Args) (env : Env)
    (hp : parseStatusSet raw = some a) (ht : a.token ≠ "") :
    raw.account.isSome = true ∧ raw.password.isSome = true ∧
    resolveAppliance env a
      = ([Event.resolveRead a.ip],
         ResolveResult.resolved
           (appliance_state env a.ip (Auth.direct a.token a.key))) ∧
    (statusCommand env a).any Event.isCloudCall = false ∧
    (setCommand env a).any Event.isCloudCall = false ∧
    (env.reachable a.ip = true →
      setCommand env a
        = [Event.resolveRead a.ip,
           Event.deviceMutate a.ip (mutationOfArgs a),
           Event.deviceRead a.ip
             (applyMutation (mutationOfArgs a) (env.deviceState a.ip)),
           Event.printBlock a.ip a.token a.key
             (applyMutation (mutationOfArgs a) (env.deviceState a.ip))
             a.credentials]) := by
  have hreq : raw.account.isSome = true ∧ raw.password.isSome = true := by
    cases h1 : raw.ip <;> cases h2 : raw.account <;> cases h3 : raw.password <;>
      simp [parseStatusSet, h1, h2, h3] at hp ⊢
  have hres := resolve_direct env a ht
  refine ⟨hreq.1, hreq.2, hres, ?_, ?_, fun hr => ?_⟩
  · cases happ : appliance_state env a.ip (Auth.direct a.token a.key) <;>
      simp [statusCommand, hres, happ, Event.isCloudCall]
  · cases happ : appliance_state env a.ip (Auth.direct a.token a.key) <;>
      simp [setCommand, hres, happ, Event.isCloudCall, set_state]
  · have happ : appliance_state env a.ip (Auth.direct a.token a.key)
        = some ⟨a.ip, a.token, a.key, env.deviceState a.ip⟩ := by
      simp [appliance_state, hr]
    simp [setCommand, hres, happ, set_state]

/-- Witness for the amended C5 at a concrete raw option vector supplying
token, key, account and password. -/
theorem token_key_requires_account_flags_witness :
    parseStatusSet rawDirect = some directArgs ∧ directArgs.token ≠ "" ∧
    (rawDirect.account.isSome = true ∧ rawDirect.password.isSome = true ∧
     resolveAppliance sampleEnv directArgs
       = ([Event.resolveRead directArgs.ip],
          ResolveResult.resolved
            (appliance_state sampleEnv directArgs.ip
              (Auth.direct directArgs.token directArgs.key))) ∧
     (statusCommand sampleEnv directArgs).any Event.isCloudCall = false ∧
     (setCommand sampleEnv directArgs).any Event.isCloudCall = false ∧
     (sampleEnv.reachable directArgs.ip = true →
       setCommand sampleEnv directArgs
         = [Event.resolveRead directArgs.ip,
            Event.deviceMutate directArgs.ip (mutationOfArgs directArgs),
            Event.deviceRead directArgs.ip
              (applyMutation (mutationOfArgs directArgs)
                (sampleEnv.deviceState directArgs.ip)),
            Event.printBlock directArgs.ip directArgs.token directArgs.key
              (applyMutation (mutationOfArgs directArgs)
                (sampleEnv.deviceState directArgs.ip))
              directArgs.credentials])) :=
  ⟨by decide, by decide,
   token_key_requires_account_flags rawDirect directArgs sampleEnv
     (by decide) (by decide)⟩

/-- C6: a set supplying only the fan flag prints a post-mutation state whose
fan speed is the supplied value and whose every other field — target
humidity, mode, ion mode, power, and the read-only fields — is unchanged
from the pre-mutation device value `ap.state`. -/
theorem set_only_supplied_fields_change (env : Env) (a : Args)
    (ap : Appliance) (f : String)
    (h : (resolveAppliance env a).2 = ResolveResult.resolved (some ap))
    (hh : a.humidity = none) (hm : a.mode = none) (hi : a.ion = none)
    (ho : a.«on» = none) (hf : a.fan = some f) :
    setCommand env a = (resolveAppliance env a).1 ++
      [Event.deviceMutate a.ip (mutationOfArgs a),
       Event.deviceRead a.ip (applyMutation (mutationOfArgs a) ap.state),
       Event.printBlock a.ip ap.token ap.key
         (applyMutation (mutationOfArgs a) ap.state) a.credentials] ∧
    (applyMutation (mutationOfArgs a) ap.state).fan_speed = f ∧
    (applyMutation (mutationOfArgs a) ap.state).target_humidity
        = ap.state.target_humidity ∧
    (applyMutation (mutationOfArgs a) ap.state).mode = ap.state.mode ∧
    (applyMutation (mutationOfArgs a) ap.state).ion_mode = ap.state.ion_mode ∧
    (applyMutation (mutationOfArgs a) ap.state).is_on = ap.state.is_on ∧
    (applyMutation (mutationOfArgs a) ap.state).name = ap.state.name ∧
    (applyMutation (mutationOfArgs a) ap.state).current_humidity
        = ap.state.current_humidity ∧
    (applyMutation (mutationOfArgs a) ap.state).tank_full
        = ap.state.tank_full := by
  obtain ⟨hip, hst, -⟩ := resolve_some_facts env a ap h
  refine ⟨?_, ?_, ?_, ?_, ?_, ?_, ?_, ?_, ?_⟩
  · simp [setCommand, h, set_state, hip, hst]
  all_goals simp [applyMutation, mutationOfArgs, hh, hm, hi, ho, hf]

/-- Witness for C6 at a concrete argument vector supplying only the fan
flag. -/
theorem set_only_supplied_fields_change_witness :
    (resolveAppliance sampleEnv cloudArgs).2
        = ResolveResult.resolved (some cloudAp) ∧
    cloudArgs.humidity = none ∧ cloudArgs.mode = none ∧
    cloudArgs.ion = none ∧ cloudArgs.«on» = none ∧ cloudArgs.fan = some "60" ∧
    (setCommand sampleEnv cloudArgs = (resolveAppliance sampleEnv cloudArgs).1 ++
      [Event.deviceMutate cloudArgs.ip (mutationOfArgs cloudArgs),
       Event.deviceRead cloudArgs.ip
         (applyMutation (mutationOfArgs cloudArgs) cloudAp.state),
       Event.printBlock cloudArgs.ip cloudAp.token cloudAp.key
         (applyMutation (mutationOfArgs cloudArgs) cloudAp.state)
         cloudArgs.credentials] ∧
     (applyMutation (mutationOfArgs cloudArgs) cloudAp.state).fan_speed = "60" ∧
     (applyMutation (mutationOfArgs cloudArgs) cloudAp.state).target_humidity
         = cloudAp.state.target_humidity ∧
     (applyMutation (mutationOfArgs cloudArgs) cloudAp.state).mode
         = cloudAp.state.mode ∧
     (applyMutation (mutationOfArgs cloudArgs) cloudAp.state).ion_mode
         = cloudAp.state.ion_mode ∧
     (applyMutation (mutationOfArgs cloudArgs) cloudAp.state).is_on
         = cloudAp.state.is_on ∧
     (applyMutation (mutationOfArgs cloudArgs) cloudAp.state).name
         = cloudAp.state.name ∧
     (applyMutation (mutationOfArgs cloudArgs) cloudAp.state).current_humidity
         = cloudAp.state.current_humidity ∧
     (applyMutation (mutationOfArgs cloudArgs) cloudAp.state).tank_full
         = cloudAp.state.tank_full) :=
  ⟨by decide, rfl, rfl, rfl, rfl, rfl,
   set_only_supplied_fields_change sampleEnv cloudArgs cloudAp "60"
     (by decide) rfl rfl rfl rfl rfl⟩

/-- C7: when resolution runs but the appliance state cannot be obtained, the
status command logs the unable-to-get-status error and prints no state
block. -/
theorem status_failed_read_reports_error (env : Env) (a : Args)
    (h : (resolveAppliance env a).2 = ResolveResult.resolved none) :
    statusCommand env a
        = (resolveAppliance env a).1 ++ [Event.logUnableToGetStatus a.ip] ∧
    Event.logUnableToGetStatus a.ip ∈ statusCommand env a ∧
    (statusCommand env a).any Event.isPrint = false := by
  have hstat : statusCommand env a
      = (resolveAppliance env a).1 ++ [Event.logUnableToGetStatus a.ip] := by
    simp [statusCommand, h]
  rcases resolve_trace_shape env a with hsh | hsh | ⟨hsh, h2⟩
  · refine ⟨hstat, ?_, ?_⟩ <;> simp [hstat, hsh, Event.isPrint]
  · refine ⟨hstat, ?_, ?_⟩ <;> simp [hstat, hsh, Event.isPrint]
  · rw [h2] at h
    simp at h

/-- Witness for C7 at a concrete environment in which the appliance does not
answer. -/
theorem status_failed_read_reports_error_witness :
    (resolveAppliance downEnv cloudArgs).2 = ResolveResult.resolved none ∧
    (statusCommand downEnv cloudArgs
        = (resolveAppliance downEnv cloudArgs).1
            ++ [Event.logUnableToGetStatus cloudArgs.ip] ∧
     Event.logUnableToGetStatus cloudArgs.ip ∈ statusCommand downEnv cloudArgs ∧
     (statusCommand downEnv cloudArgs).any Event.isPrint = false) :=
  ⟨by decide, status_failed_read_reports_error downEnv cloudArgs (by decide)⟩

/-- C8: an omitted (`none`) or empty (`some []`) networks value is accepted
and forwarded unchanged to the discovery call, where it means "all local
ranges"; an empty discovery result yields an empty output collection and no
error is ever logged by the discover command. -/
theorem discover_accepts_empty_networks (env : Env) (d : DiscoverArgs)
    (h : d.network = none ∨ d.network = some []) :
    find_appliances env d.appkey d.account d.password d.appid d.network
        = env.discovered env.allLocalRanges ∧
    discoverCommand env d
        = Event.findAppliancesCall d.appkey d.account d.password d.appid
            d.network ::
            (env.discovered env.allLocalRanges).map
              (fun ap =>
                Event.printBlock ap.ip ap.token ap.key ap.state d.credentials) ∧
    (discoverCommand env d).any Event.isLog = false ∧
    (env.discovered env.allLocalRanges = [] →
      discoverCommand env d
        = [Event.findAppliancesCall d.appkey d.account d.password d.appid
            d.network]) := by
  have hfa : find_appliances env d.appkey d.account d.password d.appid d.network
      = env.discovered env.allLocalRanges := by
    rcases h with h | h <;> simp [find_appliances, effectiveNetworks, h]
  refine ⟨hfa, ?_, ?_, fun he => ?_⟩
  · simp [discoverCommand, hfa]
  · simp [discoverCommand, hfa, Event.isLog, List.any_map, Function.comp]
  · simp [discoverCommand, hfa, he]

/-- Witness for C8 at a concrete environment whose discovery scan finds
nothing and a discover invocation omitting `--network`. -/
theorem discover_accepts_empty_networks_witness :
    (discoverNoNetworks.network = none ∨ discoverNoNetworks.network = some []) ∧
    (find_appliances sampleEnv discoverNoNetworks.appkey
          discoverNoNetworks.account discoverNoNetworks.password
          discoverNoNetworks.appid discoverNoNetworks.network
        = sampleEnv.discovered sampleEnv.allLocalRanges ∧
     discoverCommand sampleEnv discoverNoNetworks
        = Event.findAppliancesCall discoverNoNetworks.appkey
            discoverNoNetworks.account discoverNoNetworks.password
            discoverNoNetworks.appid discoverNoNetworks.network ::
            (sampleEnv.discovered sampleEnv.allLocalRanges).map
              (fun ap => Event.printBlock ap.ip ap.token ap.key ap.state
                discoverNoNetworks.credentials) ∧
     (discoverCommand sampleEnv discoverNoNetworks).any Event.isLog = false ∧
     (sampleEnv.discovered sampleEnv.allLocalRanges = [] →
       discoverCommand sampleEnv discoverNoNetworks
         = [Event.findAppliancesCall discoverNoNetworks.appkey
             discoverNoNetworks.account discoverNoNetworks.password
             discoverNoNetworks.appid discoverNoNetworks.network])) :=
  ⟨Or.inl rfl,
   discover_accepts_empty_networks sampleEnv discoverNoNetworks (Or.inl rfl)⟩

end MideaCli
